import Mathlib

/-!
Verification development for the AI-Health-Symptom-Checker repository.

The repository has two source files:
  - `worker-backend.js`: a Cloudflare-Workers request handler (the Relay)
    implementing a three-phase pipeline (web search, LLM inference,
    optional D1 logging) behind one `fetch` entry point.
  - `src/App.tsx`: a React chat client keeping an ordered transcript of
    messages, persisting it to localStorage, and submitting user turns to
    the Relay.

Both are embedded shallowly below.  External collaborators (the search
provider, the inference provider, the log store, the clock) are
nondeterministic, so their outcomes are passed to the embedded handler as
explicit parameters (a `World`); the handler itself is the deterministic
function of the source code.  Outbound calls are collected in a trace list
so that claims of the form "no external call is made" are expressible.
-/

namespace HealthChecker

/-! ## Backend relay: data model (`worker-backend.js`) -/

/-- One entry of the search provider's `organic` result list; the code
reads exactly the `title` and `snippet` fields of each entry. -/
structure SearchResult where
  title : String
  snippet : String
deriving Repr, DecidableEq

/-- Outcome of the search phase's `fetch` + `.json()` pair, as seen by the
handler: the fetch can reject (`unreachable`), the body can fail to parse
(`malformedBody`), or a JSON body is obtained whose `organic` field is
absent or a list (`ok`). -/
inductive SearchOutcome
  | unreachable
  | malformedBody
  | ok (organic : Option (List SearchResult))
deriving Repr, DecidableEq

/-- Outcome of `env.AI.run`: either the call rejects with an error message
or resolves with a `response` text. -/
inductive AIOutcome
  | fail (msg : String)
  | ok (response : String)
deriving Repr, DecidableEq

/-- Outcome of the D1 insert dispatched through `ctx.waitUntil`; the
attached `.catch` swallows the failure case. -/
inductive LogOutcome
  | ok
  | fail
deriving Repr, DecidableEq

/-- The nondeterministic environment of one request: the outcomes the
external collaborators would produce, and the two clock readings the code
takes (`toDateString` for the prompt, `toISOString` for the log row). -/
structure World where
  search : SearchOutcome
  ai : AIOutcome
  log : LogOutcome
  dateStr : String
  isoStr : String
deriving Repr, DecidableEq

/-- The worker environment bindings the code consults: the optional
`SERPER_API_KEY` secret and whether a D1 database is bound as `DB`.
(`env.AI` is assumed bound; its behavior is in `World`.) -/
structure Env where
  serperKey : Option String
  db : Bool
deriving Repr, DecidableEq

/-- Body of an incoming POST request, after `await request.json()` and the
destructuring `const { message: userQuery }`: the body may fail to parse
(`malformed`), or parse with the `message` field absent or a string. -/
inductive ReqBody
  | malformed
  | parsed (message : Option String)
deriving Repr, DecidableEq

/-- An incoming request: its HTTP method and its body. -/
structure WRequest where
  method : String
  body : ReqBody
deriving Repr, DecidableEq

/-- Body of an outgoing `Response`: plain text (`new Response('...')`),
`JSON.stringify({ reply })`, `JSON.stringify({ error })`, or
`new Response(null)`. -/
inductive RBody
  | plain (s : String)
  | jsonReply (reply : String)
  | jsonError (error : String)
  | noBody
deriving Repr, DecidableEq

/-- A `Response` as the client observes it: status, body, headers. -/
structure WResponse where
  status : Nat
  body : RBody
  headers : List (String × String)
deriving Repr, DecidableEq

/-- One outbound interaction performed by the handler, recorded in order:
the search POST (with its `q`), the `env.AI.run` call (with both prompt
messages), and the D1 insert (with its four bound values). -/
inductive Call
  | search (q : String)
  | ai (system : String) (user : String)
  | logWrite (timestamp query response context : String)
deriving Repr, DecidableEq

/-! ## Backend relay: operations -/

/-- The `corsHeaders` constant of `worker-backend.js`. -/
def corsHeaders : List (String × String) :=
  [("Access-Control-Allow-Origin", "*"),
   ("Access-Control-Allow-Methods", "GET, POST, OPTIONS"),
   ("Access-Control-Allow-Headers", "Content-Type, X-API-KEY")]

/-- `handleOptions`: `new Response(null, { headers: corsHeaders })`
(status defaults to 200). -/
def handleOptions : WResponse :=
  { status := 200, body := .noBody, headers := corsHeaders }

/-- The catch-all error response:
`new Response(JSON.stringify({ error: error.message }), { status: 500,
headers: { ...corsHeaders, 'Content-Type': 'application/json' } })`. -/
def errorResponse (msg : String) : WResponse :=
  { status := 500
    body := .jsonError msg
    headers := corsHeaders ++ [("Content-Type", "application/json")] }

/-- The context string of the search phase: when `searchData.organic` is
present with nonzero length, map each entry at index `idx` to the line
`(idx+1) ++ ". " ++ title ++ ": " ++ snippet` and join with newlines;
otherwise the literal fallback `"No web results found."`. -/
def searchContext (organic : Option (List SearchResult)) : String :=
  match organic with
  | some l =>
      if l.length ≠ 0 then
        String.intercalate "\n"
          (l.mapIdx fun idx i =>
            toString (idx + 1) ++ ". " ++ i.title ++ ": " ++ i.snippet)
      else "No web results found."
  | none => "No web results found."

/-- The system prompt template, with `new Date().toDateString()`
substituted as `dateStr` (whitespace as in the source template literal). -/
def systemPrompt (dateStr : String) : String :=
  "You are a professional AI Health Symptom Checker in Visakhapatnam, India. Date: "
    ++ dateStr ++ ".\n      \n      Analyze the symptoms based on the provided web search context.\n      Structure your response exactly like this:\n      1. ### Detailed Analysis of Possible Conditions\n      2. ### Comprehensive Home Care & Remedies\n      3. ### Urgent Warning Signs (When to see a Doctor)\n      \n      Be educational, safe, and detailed. Always include a disclaimer."

/-- The user-content of the inference call:
`` `Context:\n${context}\n\nQuery:\n${userQuery}` ``. -/
def userContent (context userQuery : String) : String :=
  "Context:\n" ++ context ++ "\n\nQuery:\n" ++ userQuery

/-- The `fetch(request, env, ctx)` handler of `worker-backend.js`,
returning the response together with the ordered trace of outbound calls.
Exceptions thrown inside the `try` block become `errorResponse` via the
outer `catch`; the runtime-produced messages of the JSON-parse and
network-failure exceptions are modelled by representative strings (no
claim depends on their exact text). -/
def workerFetch (req : WRequest) (env : Env) (w : World) :
    WResponse × List Call :=
  if req.method = "GET" then
    ({ status := 200, body := .plain "OK", headers := corsHeaders }, [])
  else if req.method = "OPTIONS" then
    (handleOptions, [])
  else if req.method ≠ "POST" then
    ({ status := 405, body := .plain "Use POST", headers := [] }, [])
  else
    match req.body with
    | .malformed => (errorResponse "Unexpected end of JSON input", [])
    | .parsed none => (errorResponse "Message is required.", [])
    | .parsed (some userQuery) =>
      if userQuery = "" then (errorResponse "Message is required.", [])
      else
        match env.serperKey with
        | none => (errorResponse "SERPER_API_KEY missing.", [])
        | some _ =>
          match w.search with
          | .unreachable =>
              (errorResponse "Failed to fetch", [.search userQuery])
          | .malformedBody =>
              (errorResponse "Unexpected token in JSON", [.search userQuery])
          | .ok organic =>
            let context := searchContext organic
            let uc := userContent context userQuery
            match w.ai with
            | .fail msg =>
                (errorResponse msg,
                 [.search userQuery, .ai (systemPrompt w.dateStr) uc])
            | .ok resp =>
              let logCalls : List Call :=
                if env.db then [.logWrite w.isoStr userQuery resp context]
                else []
              ({ status := 200
                 body := .jsonReply resp
                 headers := corsHeaders ++ [("Content-Type", "application/json")] },
               [.search userQuery, .ai (systemPrompt w.dateStr) uc] ++ logCalls)

/-! ## Chat client: data model (`src/App.tsx`) -/

/-- A JSON value, as produced by a successful `JSON.parse` (and consumed
by `JSON.stringify`).  Numbers are modelled as integers; the application
never stores fractional numbers. -/
inductive Json
  | null
  | bool (b : Bool)
  | num (n : Int)
  | str (s : String)
  | arr (elems : List Json)
  | obj (fields : List (String × Json))

/-- JS property lookup on an object's field list (for duplicate keys,
as `JSON.parse` also does, the last occurrence wins). -/
def jsGetField : List (String × Json) → String → Option Json
  | [], _ => none
  | (k, v) :: rest, name =>
      match jsGetField rest name with
      | some v2 => some v2
      | none => if k = name then some v else none

/-- JS property access `j.name`: only objects carry these data properties;
on every other value the relevant accesses yield `undefined` (`none`). -/
def jsField (j : Json) (name : String) : Option Json :=
  match j with
  | .obj fields => jsGetField fields name
  | _ => none

/-- JS truthiness of a JSON value: `null`, `false`, `0` and `""` are
falsy; every array and object is truthy. -/
def jsTruthy : Json → Bool
  | .null => false
  | .bool b => b
  | .num n => decide (n ≠ 0)
  | .str s => decide (s ≠ "")
  | .arr _ => true
  | .obj _ => true

/-- The `role` field of the client's `Message` type:
`'user' | 'assistant'`. -/
inductive Role
  | user
  | assistant
deriving Repr, DecidableEq

/-- The string a `Role` is serialized as. -/
def Role.toStr : Role → String
  | .user => "user"
  | .assistant => "assistant"

/-- Reading a role string back into the union type. -/
def roleOfStr (s : String) : Option Role :=
  if s = "user" then some .user
  else if s = "assistant" then some .assistant
  else none

/-- The client's `Message` record: `id`, `role`, `content`, and the
optional `isError` flag (absent = `undefined`). -/
structure Message where
  id : String
  role : Role
  content : String
  isError : Option Bool := none
deriving Repr, DecidableEq

/-- `JSON.stringify` of one `Message` object: fields in declaration order;
an `undefined` `isError` is omitted entirely, a present boolean is kept. -/
def encodeMessage (m : Message) : Json :=
  .obj ([("id", .str m.id), ("role", .str m.role.toStr),
         ("content", .str m.content)] ++
    match m.isError with
    | some b => [("isError", .bool b)]
    | none => [])

/-- `JSON.stringify` of the whole transcript array. -/
def encodeMessages (ms : List Message) : Json :=
  .arr (ms.map encodeMessage)

/-- Interpreting a parsed JSON value as one `Message` record, reading the
fields the way the client code does (`msg.id`, `msg.role`, `msg.content`,
`msg.isError`); `none` when the value is not a well-formed message. -/
def jsToMessage (j : Json) : Option Message :=
  match j with
  | .obj fields =>
    match jsGetField fields "id", jsGetField fields "role",
          jsGetField fields "content" with
    | some (.str i), some (.str r), some (.str c) =>
      match roleOfStr r with
      | some role =>
        match jsGetField fields "isError" with
        | none => some { id := i, role := role, content := c }
        | some (.bool b) => some { id := i, role := role, content := c, isError := some b }
        | some _ => none
      | none => none
    | _, _, _ => none
  | _ => none

/-- Interpreting a parsed JSON value as a well-formed `Message` array. -/
def jsToMessages (j : Json) : Option (List Message) :=
  match j with
  | .arr elems => elems.mapM jsToMessage
  | _ => none

/-- Content of the `localStorage` slot under `medisense_chat_history`:
either text that parses as JSON (carried as its parsed value) or text that
`JSON.parse` rejects. -/
inductive Stored
  | jsonVal (j : Json)
  | garbage (s : String)

/-- The `DISCLAIMER_MESSAGE` template literal (it begins and ends with a
newline in the source). -/
def disclaimerMessage : String :=
  "\n> ⚠️ **Disclaimer:** I am an AI assistant, not a medical professional. This information is for educational purposes only and is not a substitute for professional medical advice. Always consult with a qualified healthcare provider for any medical concerns.\n"

/-- Content of the synthesized welcome message. -/
def welcomeContent : String :=
  "# Welcome to MediSense AI 👋\n\nI can help you understand your symptoms using broad medical knowledge.\n\n"
    ++ disclaimerMessage
    ++ "\n\n**To get started, please describe your symptoms in detail.**"

/-- The synthesized welcome `Message` (`id: 'welcome'`, role assistant). -/
def welcomeMessage : Message :=
  { id := "welcome", role := .assistant, content := welcomeContent }

/-- The `useState` initializer of `App`: when the slot holds text that
parses as JSON, that parsed value is returned verbatim (left injection);
when the slot is absent or fails to parse, the one-element welcome
transcript is returned (right injection). -/
def loadMessages : Option Stored → Json ⊕ List Message
  | some (.jsonVal j) => .inl j
  | some (.garbage _) => .inr [welcomeMessage]
  | none => .inr [welcomeMessage]

/-- The persist effect
(`localStorage.setItem(STORAGE_KEY, JSON.stringify(messages))`): the slot
afterwards holds the JSON serialization of the transcript. -/
def persistSlot (ms : List Message) : Stored :=
  .jsonVal (encodeMessages ms)

/-- How the rest of the program consumes the initializer's result as a
message list: a value that came from storage is a message list exactly
when it is a well-formed `Message` array; the welcome path is one
already. -/
def interpLoaded : Json ⊕ List Message → Option (List Message)
  | .inl j => jsToMessages j
  | .inr ms => some ms

/-! ## Chat client: Submit -/

/-- JS `String.prototype.trim`: strip whitespace from both ends. -/
def jsTrim (s : String) : String :=
  ⟨((s.data.dropWhile Char.isWhitespace).reverse.dropWhile Char.isWhitespace).reverse⟩

/-- The client state `handleSubmit` reads and writes: the transcript, the
input box text, and the loading flag. -/
structure ClientState where
  messages : List Message
  input : String
  isLoading : Bool
deriving Repr, DecidableEq

/-- Outcome of the client's `fetch` to the relay: the promise can reject
(network error or the 60s `AbortSignal` timeout), or a response arrives
with its `ok` flag and a body that parses as JSON (`some`) or does not
(`none`, making `response.json()` throw). -/
inductive FetchOutcome
  | reject
  | response (ok : Bool) (body : Option Json)

/-- How a JSON value placed into a `Message.content` slot is displayed;
string replies (the only kind the backend produces) pass through
unchanged, other primitives follow the usual JS coercions.  No claim
depends on the non-string cases. -/
def jsDisplay : Json → String
  | .str s => s
  | .num n => toString n
  | .bool true => "true"
  | .bool false => "false"
  | .null => "null"
  | .arr _ => ""
  | .obj _ => "[object Object]"

/-- The fixed user-safe apology the catch branch appends. -/
def apologyText : String :=
  "I\x27m having trouble connecting to the server right now. Please try again in a moment."

/-- `handleSubmit` of `App.tsx`, with the two `Date.now().toString()`
readings (`tUser` for the user message, `tReply` for the appended reply or
error message) and the fetch outcome passed explicitly.  Returns the
resulting state together with the list of request bodies (`message`
values) POSTed to the relay. -/
def handleSubmit (st : ClientState) (tUser tReply : String)
    (outcome : FetchOutcome) : ClientState × List String :=
  if jsTrim st.input = "" ∨ st.isLoading then (st, [])
  else
    let userText := jsTrim st.input
    let afterSend : ClientState :=
      { messages := st.messages ++ [{ id := tUser, role := .user, content := userText }]
        input := ""
        isLoading := true }
    let errState : ClientState :=
      { afterSend with
          messages := afterSend.messages ++
            [{ id := tReply, role := .assistant, content := apologyText,
               isError := some true }]
          isLoading := false }
    match outcome with
    | .reject => (errState, [userText])
    | .response ok body =>
      if !ok then (errState, [userText])
      else
        match body with
        | none => (errState, [userText])
        | some data =>
          match jsField data "reply" with
          | some r =>
            if jsTruthy data && jsTruthy r then
              ({ afterSend with
                   messages := afterSend.messages ++
                     [{ id := tReply, role := .assistant, content := jsDisplay r }]
                   isLoading := false }, [userText])
            else ({ afterSend with isLoading := false }, [userText])
          | none => ({ afterSend with isLoading := false }, [userText])

/-! ## Specification-side reformulations -/

/-- Spec-side description of the context block ("one line per result as
`rank. title: snippet`, ranks consecutive from `n` in list order"),
written as plain recursion to be compared with the source's
indexed `map`. -/
def numberedLines : Nat → List SearchResult → List String
  | _, [] => []
  | n, r :: rs =>
      (toString n ++ ". " ++ r.title ++ ": " ++ r.snippet) :: numberedLines (n + 1) rs

/-! ## Theorems -/

/-- The indexed map of the source produces exactly the consecutively
numbered lines starting at `k + 1`. -/
theorem mapIdx_eq_numberedLines (l : List SearchResult) (k : Nat) :
    (l.mapIdx fun idx i =>
        toString (idx + 1 + k) ++ ". " ++ i.title ++ ": " ++ i.snippet)
      = numberedLines (k + 1) l := by
  induction l generalizing k with
  | nil => simp [numberedLines]
  | cons r rs ih =>
    rw [List.mapIdx_cons]
    have harg : (fun idx (i : SearchResult) =>
        toString (idx + 1 + 1 + k) ++ ". " ++ i.title ++ ": " ++ i.snippet)
        = (fun idx (i : SearchResult) =>
        toString (idx + 1 + (k + 1)) ++ ". " ++ i.title ++ ": " ++ i.snippet) := by
      funext idx i
      have : idx + 1 + 1 + k = idx + 1 + (k + 1) := by omega
      rw [this]
    simp only [numberedLines, harg, ih]
    have h0 : 0 + 1 + k = k + 1 := by omega
    rw [h0]

/-- C9: a request whose method is neither GET, POST nor OPTIONS gets
status 405 with the plain-text body "Use POST", which is not the JSON
failure shape and carries none of the permissive CORS headers. -/
theorem unknown_method_use_post (req : WRequest) (env : Env) (w : World)
    (h1 : req.method ≠ "GET") (h2 : req.method ≠ "OPTIONS")
    (h3 : req.method ≠ "POST") :
    (workerFetch req env w).1
        = { status := 405, body := .plain "Use POST", headers := [] } ∧
    (∀ e, (workerFetch req env w).1.body ≠ RBody.jsonError e) ∧
    ∀ p ∈ corsHeaders, p ∉ (workerFetch req env w).1.headers := by
  have hfix : workerFetch req env w
      = ({ status := 405, body := .plain "Use POST", headers := [] }, []) := by
    simp [workerFetch, h1, h2, h3]
  refine ⟨by rw [hfix], ?_, ?_⟩
  · intro e
    rw [hfix]
    intro hcontra
    exact RBody.noConfusion hcontra
  · intro p _ hmem
    rw [hfix] at hmem
    exact (List.not_mem_nil p) hmem

/-- C9 witness: a PUT request is answered with the bare 405 response. -/
theorem unknown_method_use_post_witness :
    (workerFetch ⟨"PUT", .malformed⟩ ⟨none, false⟩
        ⟨.unreachable, .fail "x", .ok, "d", "t"⟩).1
      = { status := 405, body := .plain "Use POST", headers := [] } :=
  (unknown_method_use_post ⟨"PUT", .malformed⟩ ⟨none, false⟩
    ⟨.unreachable, .fail "x", .ok, "d", "t"⟩
    (by decide) (by decide) (by decide)).1

/-- C2: a POST whose body has an empty or missing `message`, and any POST
handled while `SERPER_API_KEY` is absent, is answered with the JSON
failure shape carrying an `error` field, and the outbound-call trace is
empty: no search call, no inference call, no log write. -/
theorem reject_before_external_calls (body : ReqBody) (env : Env) (w : World)
    (h : env.serperKey = none ∨ body = .parsed none ∨ body = .parsed (some "")) :
    (∃ e, (workerFetch ⟨"POST", body⟩ env w).1 = errorResponse e) ∧
    (workerFetch ⟨"POST", body⟩ env w).2 = [] := by
  rcases h with hk | hb | hb
  · cases body with
    | malformed => exact ⟨⟨"Unexpected end of JSON input", rfl⟩, rfl⟩
    | parsed msg =>
      cases msg with
      | none => exact ⟨⟨"Message is required.", rfl⟩, rfl⟩
      | some q =>
        by_cases hq : q = ""
        · subst hq
          exact ⟨⟨"Message is required.", rfl⟩, rfl⟩
        · constructor
          · refine ⟨"SERPER_API_KEY missing.", ?_⟩
            simp [workerFetch, hq, hk]
          · simp [workerFetch, hq, hk]
  · subst hb
    exact ⟨⟨"Message is required.", rfl⟩, rfl⟩
  · subst hb
    exact ⟨⟨"Message is required.", rfl⟩, rfl⟩

/-- C2 witness: the empty query and the missing-credential configuration
are both rejected with an error body and an empty call trace. -/
theorem reject_before_external_calls_witness :
    ((∃ e, (workerFetch ⟨"POST", .parsed (some "")⟩ ⟨some "k", true⟩
        ⟨.ok none, .ok "r", .ok, "d", "t"⟩).1 = errorResponse e) ∧
      (workerFetch ⟨"POST", .parsed (some "")⟩ ⟨some "k", true⟩
        ⟨.ok none, .ok "r", .ok, "d", "t"⟩).2 = []) ∧
    ((∃ e, (workerFetch ⟨"POST", .parsed (some "fever")⟩ ⟨none, true⟩
        ⟨.ok none, .ok "r", .ok, "d", "t"⟩).1 = errorResponse e) ∧
      (workerFetch ⟨"POST", .parsed (some "fever")⟩ ⟨none, true⟩
        ⟨.ok none, .ok "r", .ok, "d", "t"⟩).2 = []) :=
  ⟨reject_before_external_calls (.parsed (some "")) ⟨some "k", true⟩
      ⟨.ok none, .ok "r", .ok, "d", "t"⟩ (Or.inr (Or.inr rfl)),
   reject_before_external_calls (.parsed (some "fever")) ⟨none, true⟩
      ⟨.ok none, .ok "r", .ok, "d", "t"⟩ (Or.inl rfl)⟩

/-- C4: the client-visible response (status, body and headers) is the same
whether the log store is bound or not and whether the dispatched insert
succeeds or fails — the logging phase never interferes with the
response. -/
theorem logging_noninterference (req : WRequest) (key : Option String)
    (s : SearchOutcome) (ai : AIOutcome) (d iso : String)
    (db1 db2 : Bool) (lg1 lg2 : LogOutcome) :
    (workerFetch req ⟨key, db1⟩ ⟨s, ai, lg1, d, iso⟩).1
      = (workerFetch req ⟨key, db2⟩ ⟨s, ai, lg2, d, iso⟩).1 := by
  obtain ⟨m, body⟩ := req
  by_cases hg : m = "GET"
  · simp [workerFetch, hg]
  by_cases ho : m = "OPTIONS"
  · simp [workerFetch, hg, ho]
  by_cases hp : m = "POST"
  case neg => simp [workerFetch, hg, ho, hp]
  subst hp
  cases body with
  | malformed => simp [workerFetch, hg, ho]
  | parsed msg =>
    cases msg with
    | none => simp [workerFetch, hg, ho]
    | some q =>
      by_cases hq : q = ""
      · simp [workerFetch, hg, ho, hq]
      cases key with
      | none => simp [workerFetch, hg, ho, hq]
      | some k =>
        cases s with
        | unreachable => simp [workerFetch, hg, ho, hq]
        | malformedBody => simp [workerFetch, hg, ho, hq]
        | ok organic =>
          cases ai with
          | fail msg => simp [workerFetch, hg, ho, hq]
          | ok resp => simp [workerFetch, hg, ho, hq]

/-- C3: the context embedded in the inference user-content is
`Context:\n` + context + `\n\nQuery:\n` + query, where the context is one
line per result of the form `rank. title: snippet` with ranks consecutive
from 1 in list order joined by newlines, and exactly the fallback string
for an absent or empty result list. -/
theorem context_numbering (q key d iso : String) (db : Bool)
    (organic : Option (List SearchResult)) (ai : AIOutcome) (lg : LogOutcome)
    (hq : q ≠ "") :
    Call.ai (systemPrompt d)
        ("Context:\n" ++ searchContext organic ++ "\n\nQuery:\n" ++ q)
      ∈ (workerFetch ⟨"POST", .parsed (some q)⟩ ⟨some key, db⟩
          ⟨.ok organic, ai, lg, d, iso⟩).2 ∧
    searchContext none = "No web results found." ∧
    searchContext (some []) = "No web results found." ∧
    ∀ l, l ≠ [] →
      searchContext (some l) = String.intercalate "\n" (numberedLines 1 l) := by
  refine ⟨?_, rfl, rfl, ?_⟩
  · cases ai with
    | fail msg => simp [workerFetch, hq, userContent]
    | ok resp => by_cases hdb : db <;> simp [workerFetch, hq, userContent, hdb]
  · intro l hl
    have hlen : l.length ≠ 0 := by simpa using hl
    simp only [searchContext, if_pos hlen, ne_eq]
    have h := mapIdx_eq_numberedLines l 0
    simp only [Nat.add_zero] at h
    rw [h]

/-- C3 witness: a two-snippet search for the sample query yields the two
lines numbered 1 and 2, embedded in the inference user-content. -/
theorem context_numbering_witness :
    Call.ai (systemPrompt "Mon Jan 01 2024")
        ("Context:\n"
          ++ searchContext (some [⟨"NHS", "Headache info"⟩, ⟨"Mayo", "Sore throat info"⟩])
          ++ "\n\nQuery:\n" ++ "I have a mild headache and sore throat")
      ∈ (workerFetch ⟨"POST", .parsed (some "I have a mild headache and sore throat")⟩
          ⟨some "key", true⟩
          ⟨.ok (some [⟨"NHS", "Headache info"⟩, ⟨"Mayo", "Sore throat info"⟩]),
           .ok "analysis", .ok, "Mon Jan 01 2024", "t"⟩).2 ∧
    searchContext (some [⟨"NHS", "Headache info"⟩, ⟨"Mayo", "Sore throat info"⟩])
      = "1. NHS: Headache info\n2. Mayo: Sore throat info" :=
  ⟨(context_numbering "I have a mild headache and sore throat" "key"
      "Mon Jan 01 2024" "t" true
      (some [⟨"NHS", "Headache info"⟩, ⟨"Mayo", "Sore throat info"⟩])
      (.ok "analysis") .ok (by decide)).1,
   by decide⟩

/-- C1 counterexample: with a non-empty query and the credential
configured, an unreachable search provider makes the whole request fail
with the 500 error response before any inference call (the trace stops at
the search call), and a malformed search body fails the same way —
contrary to the claimed graceful degradation. -/
theorem search_failure_aborts_request :
    (workerFetch ⟨"POST", .parsed (some "headache")⟩ ⟨some "k", false⟩
        ⟨.unreachable, .ok "advice", .ok, "d", "t"⟩).1.status = 500 ∧
    (workerFetch ⟨"POST", .parsed (some "headache")⟩ ⟨some "k", false⟩
        ⟨.unreachable, .ok "advice", .ok, "d", "t"⟩).2 = [.search "headache"] ∧
    (workerFetch ⟨"POST", .parsed (some "headache")⟩ ⟨some "k", false⟩
        ⟨.malformedBody, .ok "advice", .ok, "d", "t"⟩).1.status = 500 ∧
    (workerFetch ⟨"POST", .parsed (some "headache")⟩ ⟨some "k", false⟩
        ⟨.malformedBody, .ok "advice", .ok, "d", "t"⟩).2 = [.search "headache"] :=
  ⟨rfl, rfl, rfl, rfl⟩

/-- C1 amended: the empty-context fallback is substituted and the request
proceeds to the inference phase only when the search call succeeds with a
well-formed body whose organic list is absent or empty; when the fetch
rejects or the body fails to parse, the request fails with the error
response and never reaches inference. -/
theorem search_degradation_on_wellformed_empty
    (q key d iso : String) (db : Bool) (ai : AIOutcome) (lg : LogOutcome)
    (organic : Option (List SearchResult)) (hq : q ≠ "")
    (hempty : organic = none ∨ organic = some []) :
    Call.ai (systemPrompt d) (userContent "No web results found." q)
      ∈ (workerFetch ⟨"POST", .parsed (some q)⟩ ⟨some key, db⟩
          ⟨.ok organic, ai, lg, d, iso⟩).2 ∧
    ∀ so, (so = SearchOutcome.unreachable ∨ so = SearchOutcome.malformedBody) →
      (workerFetch ⟨"POST", .parsed (some q)⟩ ⟨some key, db⟩
          ⟨so, ai, lg, d, iso⟩).1.status = 500 ∧
      ∀ sys usr, Call.ai sys usr
        ∉ (workerFetch ⟨"POST", .parsed (some q)⟩ ⟨some key, db⟩
            ⟨so, ai, lg, d, iso⟩).2 := by
  constructor
  · have hctx : searchContext organic = "No web results found." := by
      rcases hempty with h | h <;> subst h <;> rfl
    cases ai with
    | fail msg => simp [workerFetch, hq, userContent, hctx]
    | ok resp => by_cases hdb : db <;> simp [workerFetch, hq, userContent, hctx, hdb]
  · intro so hso
    rcases hso with h | h <;> subst h <;>
      exact ⟨by simp [workerFetch, hq, errorResponse],
        by intro sys usr; simp [workerFetch, hq]⟩

/-- C1 amended witness: a well-formed empty search result for a concrete
query reaches inference with the fallback context. -/
theorem search_degradation_witness :
    Call.ai (systemPrompt "d") (userContent "No web results found." "sore throat")
      ∈ (workerFetch ⟨"POST", .parsed (some "sore throat")⟩ ⟨some "k", true⟩
          ⟨.ok (some []), .ok "r", .fail, "d", "t"⟩).2 :=
  (search_degradation_on_wellformed_empty "sore throat" "k" "d" "t" true
    (.ok "r") .fail (some []) (by decide) (Or.inr rfl)).1

/-- Interpreting the serialization of one message recovers it exactly. -/
theorem jsToMessage_encodeMessage (m : Message) :
    jsToMessage (encodeMessage m) = some m := by
  obtain ⟨i, role, c, err⟩ := m
  cases err with
  | none =>
      cases role <;>
        simp [encodeMessage, jsToMessage, jsGetField, Role.toStr, roleOfStr]
  | some b =>
      cases role <;>
        simp [encodeMessage, jsToMessage, jsGetField, Role.toStr, roleOfStr]

/-- C5: persisting a transcript and initializing from the stored slot
reproduces the identical ordered message sequence — no id, role, content
or error flag is lost in the round trip. -/
theorem transcript_round_trip (ms : List Message) :
    interpLoaded (loadMessages (some (persistSlot ms))) = some ms := by
  show jsToMessages (encodeMessages ms) = some ms
  simp only [encodeMessages, jsToMessages]
  induction ms with
  | nil => rfl
  | cons m rest ih =>
      rw [List.map_cons, List.mapM_cons, jsToMessage_encodeMessage, ih]
      rfl

/-- C8 counterexample: a stored slot holding `"oops"` — valid JSON that is
not a well-formed Message array — is returned verbatim by the initializer
instead of the synthesized welcome transcript, and it is not a
Transcript. -/
theorem load_nonarray_counterexample :
    loadMessages (some (.jsonVal (.str "oops"))) = .inl (.str "oops") ∧
    interpLoaded (loadMessages (some (.jsonVal (.str "oops")))) = none ∧
    loadMessages (some (.jsonVal (.str "oops")))
      ≠ Sum.inr [welcomeMessage] := by
  refine ⟨rfl, rfl, ?_⟩
  intro h
  exact Sum.noConfusion h

/-- C8 amended: initialization always terminates with a value; it yields
the synthesized welcome transcript exactly when the slot is absent or its
content fails to parse as JSON, and yields the parsed value verbatim
whenever the content parses — even when that value is not a well-formed
Message array. -/
theorem load_fallback_amended :
    loadMessages none = .inr [welcomeMessage] ∧
    (∀ s, loadMessages (some (.garbage s)) = .inr [welcomeMessage]) ∧
    (∀ j, loadMessages (some (.jsonVal j)) = .inl j) :=
  ⟨rfl, fun _ => rfl, fun _ => rfl⟩

/-- C6: Submit with whitespace-only input, or while a prior Submit is
still pending (loading flag set), is a complete no-op: the state
(transcript included) is unchanged and no outbound call is made. -/
theorem submit_guard_noop (st : ClientState) (tUser tReply : String)
    (o : FetchOutcome) (h : jsTrim st.input = "" ∨ st.isLoading) :
    handleSubmit st tUser tReply o = (st, []) := by
  simp only [handleSubmit, if_pos h]

/-- C6 witness: a whitespace-only input and a pending-submit state are
both no-ops. -/
theorem submit_guard_noop_witness :
    (jsTrim "   " = "" ∨ (false : Bool)) ∧
    handleSubmit ⟨[], "   ", false⟩ "1" "2" .reject = (⟨[], "   ", false⟩, []) ∧
    (jsTrim "help" = "" ∨ (true : Bool)) ∧
    handleSubmit ⟨[], "help", true⟩ "1" "2" .reject = (⟨[], "help", true⟩, []) :=
  ⟨Or.inl (by decide),
   submit_guard_noop ⟨[], "   ", false⟩ "1" "2" .reject (Or.inl (by decide)),
   Or.inr rfl,
   submit_guard_noop ⟨[], "help", true⟩ "1" "2" .reject (Or.inr rfl)⟩

/-- C7: every completion of a non-guarded Submit clears the loading flag,
and every failing completion (rejected fetch, non-success status, or
unparseable body) appends exactly one assistant message whose content is
the fixed apology string and whose error flag is set. -/
theorem submit_failure_apology (st : ClientState) (tUser tReply : String)
    (h1 : jsTrim st.input ≠ "") (h2 : st.isLoading = false) :
    (∀ o, ((handleSubmit st tUser tReply o).1).isLoading = false) ∧
    ∀ o, (o = FetchOutcome.reject ∨ (∃ b, o = .response false b)
            ∨ o = .response true none) →
      ((handleSubmit st tUser tReply o).1).messages
        = st.messages
            ++ [{ id := tUser, role := .user, content := jsTrim st.input },
                { id := tReply, role := .assistant, content := apologyText,
                  isError := some true }] := by
  have hguard : ¬(jsTrim st.input = "" ∨ st.isLoading) := by
    simp [h1, h2]
  constructor
  · intro o
    cases o with
    | reject => simp [handleSubmit, if_neg hguard]
    | response ok body =>
      cases ok with
      | false => simp [handleSubmit, if_neg hguard]
      | true =>
        cases body with
        | none => simp [handleSubmit, if_neg hguard]
        | some data =>
          cases hr : jsField data "reply" with
          | none => simp [handleSubmit, if_neg hguard, hr]
          | some r =>
            by_cases ht : (jsTruthy data && jsTruthy r) = true <;>
              simp [handleSubmit, if_neg hguard, hr, ht]
  · intro o ho
    rcases ho with h | ⟨b, h⟩ | h <;> subst h <;>
      simp [handleSubmit, if_neg hguard]

/-- C7 witness: a rejected fetch appends the user message followed by the
flagged apology message, and the loading flag ends cleared. -/
theorem submit_failure_apology_witness :
    (jsTrim "chest pain" ≠ "") ∧
    (handleSubmit ⟨[], "chest pain", false⟩ "10" "11" .reject).1.messages
      = [{ id := "10", role := .user, content := jsTrim "chest pain" },
         { id := "11", role := .assistant, content := apologyText,
           isError := some true }] ∧
    (handleSubmit ⟨[], "chest pain", false⟩ "10" "11" .reject).1.isLoading
      = false := by
  refine ⟨by decide, ?_, ?_⟩
  · have h := (submit_failure_apology ⟨[], "chest pain", false⟩ "10" "11"
      (by decide) rfl).2 FetchOutcome.reject (Or.inl rfl)
    simpa using h
  · exact (submit_failure_apology ⟨[], "chest pain", false⟩ "10" "11"
      (by decide) rfl).1 .reject

/-- C10: a success-status response whose parsed body has no truthy `reply`
field makes Submit append nothing beyond the user's own message — no
assistant message, no error message — and only clear the loading flag. -/
theorem submit_no_reply_no_append (st : ClientState) (tUser tReply : String)
    (data : Json) (h1 : jsTrim st.input ≠ "") (h2 : st.isLoading = false)
    (h3 : ∀ r, jsField data "reply" = some r
      → (jsTruthy data && jsTruthy r) = false) :
    (handleSubmit st tUser tReply (.response true (some data))).1.messages
      = st.messages
          ++ [{ id := tUser, role := .user, content := jsTrim st.input }] ∧
    (handleSubmit st tUser tReply (.response true (some data))).1.isLoading
      = false := by
  have hguard : ¬(jsTrim st.input = "" ∨ st.isLoading) := by
    simp [h1, h2]
  cases hr : jsField data "reply" with
  | none => exact ⟨by simp [handleSubmit, if_neg hguard, hr], by simp [handleSubmit, if_neg hguard, hr]⟩
  | some r =>
    have ht := h3 r hr
    exact ⟨by simp [handleSubmit, if_neg hguard, hr, ht],
           by simp [handleSubmit, if_neg hguard, hr, ht]⟩

/-- C10 witness: a success response whose body is an object without a
`reply` field leaves the transcript ending with the user's message and the
loading flag cleared. -/
theorem submit_no_reply_witness :
    (handleSubmit ⟨[], "hi", false⟩ "1" "2"
        (.response true (some (.obj [("status", .str "ok")])))).1.messages
      = [{ id := "1", role := .user, content := jsTrim "hi" }] ∧
    (handleSubmit ⟨[], "hi", false⟩ "1" "2"
        (.response true (some (.obj [("status", .str "ok")])))).1.isLoading
      = false := by
  have h := submit_no_reply_no_append ⟨[], "hi", false⟩ "1" "2"
    (.obj [("status", .str "ok")]) (by decide) rfl
    (fun r hr => Option.noConfusion hr)
  exact ⟨by simpa using h.1, h.2⟩

end HealthChecker
